import Mathlib

/-!
Verification of the Adaptive Element Resolution and Session-State Engine
(`src/uipath_automation.py`): a shallow embedding of the selector-loop
resolver, the session-state classifier, job discovery, the job trigger,
browser teardown and the main orchestration flow, together with theorems
settling the specified properties.

The page/browser capability is external, so each embedded operation is
parameterised by an environment recording, for every selector it may
probe, the outcome of the bounded visibility probe
(`locator(sel).is_visible(timeout=...)`): visible, not visible, or an
exception.  The Python code wraps every probe in `try: ... except:
continue`, so a raising probe and a non-visible probe drive the same
control flow; the embedding keeps them distinct so that theorems can
quantify over both.  Actions on elements already checked visible
(`fill`, `click`) are modelled as succeeding and are recorded as trace
events where a claim is about side effects.
-/

/-- Outcome of one bounded visibility probe
(`page.locator(sel).is_visible(timeout=...)` in the source):
the element is visible, the element is not visible within the timeout,
or the probe raised (invalid selector, transient page error). -/
inductive ProbeResult where
  | vis
  | notVis
  | err
deriving DecidableEq, Repr

/-- `username_selectors` from `UiPathAutomation.login` (lines 107-113). -/
def username_selectors : List String :=
  ["input[name=\"email\"]",
   "input[name=\"username\"]",
   "input[type=\"email\"]",
   "input[type=\"text\"][placeholder*=\"email\" i]",
   "input[placeholder*=\"username\" i]"]

/-- `password_selectors` from `UiPathAutomation.login` (lines 115-118). -/
def password_selectors : List String :=
  ["input[name=\"password\"]",
   "input[type=\"password\"]"]

/-- `login_button_selectors` from `UiPathAutomation.login` (lines 120-126). -/
def login_button_selectors : List String :=
  ["button[type=\"submit\"]",
   "button:has-text(\"Sign in\")",
   "button:has-text(\"Login\")",
   "button:has-text(\"Log in\")",
   "input[type=\"submit\"]"]

/-- `job_links` from `UiPathAutomation.navigate_to_jobs` (lines 241-248). -/
def job_links : List String :=
  ["a:has-text(\"Jobs\")",
   "a:has-text(\"Processes\")",
   "a[href*=\"/jobs\"]",
   "a[href*=\"/processes\"]",
   "button:has-text(\"Jobs\")",
   "button:has-text(\"Processes\")"]

/-- The resolver loop shared by the credential-field, submit-button and
navigation-link resolutions (lines 129-138, 145-154, 161-170, 250-258):
`for selector in sels: try: if is_visible(selector): <act>; break
except: continue`.  Returns the selector that located the element (the
loop acts on it and breaks), or `none` when every strategy is exhausted.
A probe that raises (`ProbeResult.err`) is handled by the bare `except:
continue`, exactly like a non-visible probe. -/
def firstVisible (probe : String → ProbeResult) : List String → Option String
  | [] => none
  | s :: rest =>
    if probe s = ProbeResult.vis then some s else firstVisible probe rest

/-- The selectors the resolver loop actually probes, in order: every
selector up to and including the first one whose probe reports visible;
after that the loop breaks and no later strategy is probed. -/
def probedSelectors (probe : String → ProbeResult) : List String → List String
  | [] => []
  | s :: rest =>
    if probe s = ProbeResult.vis then [s] else s :: probedSelectors probe rest

/-- `logged_in_indicators` from `UiPathAutomation._is_logged_in`
(lines 197-205): positive evidence that the session is authenticated. -/
def logged_in_indicators : List String :=
  ["text=Jobs",
   "text=Processes",
   "text=Robots",
   "text=Orchestrator",
   "[data-testid*=\"menu\"]",
   "nav",
   "[role=\"navigation\"]"]

/-- `login_indicators` from `UiPathAutomation._is_logged_in`
(lines 215-219): negative evidence (a login page is showing). -/
def login_indicators : List String :=
  ["text=Sign in",
   "text=Login",
   "input[type=\"password\"]"]

/-- One indicator loop of `_is_logged_in`: `for indicator in l: try: if
is_visible(indicator): return ... except: continue` returns at the first
visibly matching indicator, i.e. iff some indicator's probe is visible. -/
def anyVisible (probe : String → ProbeResult) (l : List String) : Bool :=
  l.any fun s => probe s = ProbeResult.vis

/-- `UiPathAutomation._is_logged_in` (lines 193-233): probe the positive
indicators first and return `true` at the first visible match; otherwise
probe the negative indicators and return `false` at the first visible
match; otherwise (the comment: "If we can't determine, assume logged
in") return `true`.  Every probe sits inside an inner `try/except`, so
the outer `except Exception: return False` is unreachable in this
per-probe model. -/
def is_logged_in (probe : String → ProbeResult) : Bool :=
  if anyVisible probe logged_in_indicators then true
  else if anyVisible probe login_indicators then false
  else true

/-- The spec's session-state enum: `{Authenticated, Unauthenticated,
Unknown}`, with `Unknown` as the explicit insufficient-evidence state. -/
inductive SessionState where
  | authenticated
  | unauthenticated
  | unknown
deriving DecidableEq, Repr

/-- The coercion from the code's boolean classification to the spec's
enum: the `bool` returned by `_is_logged_in` only distinguishes
authenticated from unauthenticated. -/
def boolToSessionState (b : Bool) : SessionState :=
  if b then SessionState.authenticated else SessionState.unauthenticated

/-- Classifier written from the spec's words (section 4.2), for
comparison with the code's `is_logged_in`: positive indicators first,
then negative, and `Unknown` when neither set yields a match. -/
def classifySpec (probe : String → ProbeResult) : SessionState :=
  if anyVisible probe logged_in_indicators then SessionState.authenticated
  else if anyVisible probe login_indicators then SessionState.unauthenticated
  else SessionState.unknown

/-- A probe environment where nothing on the page is visible: no
positive and no negative indicator matches. -/
def noIndicatorProbe : String → ProbeResult := fun _ => ProbeResult.notVis

/-- A discovered job record, as built by `UiPathAutomation.list_jobs`
(lines 309-313): the stripped display name and the enumerate index
within the (truncated) element list of the winning strategy.  The
`element` handle is owned by the page capability and not retained by the
model. -/
structure JobRecord where
  name : String
  idx : Nat
deriving DecidableEq, Repr

/-- `job_item_selectors` from `UiPathAutomation.list_jobs`
(lines 283-293): the ordered row-group strategies. -/
def job_item_selectors : List String :=
  ["tr[data-testid*=\"job\"]",
   "tr[data-testid*=\"process\"]",
   "div[data-testid*=\"job\"]",
   "div[data-testid*=\"process\"]",
   ".job-row",
   ".process-row",
   "tbody tr",
   "[class*=\"job\"]",
   "[class*=\"process\"]"]

/-- The listing page as `list_jobs` observes it: for each row-group
selector, the rows `page.locator(selector).all()` returns, each row
represented by the outcome of its name extraction
(`element.locator('td:first-child, [class*="name"], [class*="title"]').first`
followed by `count() > 0` and `inner_text().strip()`): `some s` is the
stripped text when the nested locator matched and `inner_text` did not
raise, `none` when the nested locator matched nothing or the extraction
raised (both end the row's `try` body without appending).  A strategy
whose `locator(...).all()` call raises is modelled as returning `[]`,
since `except: continue` gives it the same control flow as an empty
match. -/
structure JobsPage where
  rowsOf : String → List (Option String)

/-- The outcome of one row's name extraction as `list_jobs` filters it:
a record is kept only when extraction succeeded and the stripped text is
nonempty (`if job_name:`). -/
def rowNameKept : Option String → Option String
  | some n => if n = "" then none else some n
  | none => none

/-- The inner row loop of `list_jobs` (lines 302-315):
`for i, element in enumerate(elements[:50])`, appending a record per row
whose extraction yields a nonempty name and skipping the rest
(`except: continue` / failed `count()` / empty strip).  `i` counts every
enumerated row, skipped or not. -/
def extractRows (i : Nat) : List (Option String) → List JobRecord
  | [] => []
  | r :: rest =>
    match rowNameKept r with
    | some n => { name := n, idx := i } :: extractRows (i + 1) rest
    | none => extractRows (i + 1) rest

/-- Records one strategy contributes: its rows truncated to the first 50
(`elements[:50]`), then the row loop. -/
def extractJobs (rows : List (Option String)) : List JobRecord :=
  extractRows 0 (rows.take 50)

/-- The strategy loop of `list_jobs` (lines 296-320): try each row-group
selector in order; `if jobs: break` stops at the first strategy whose
extraction produced at least one record (a strategy matching rows whose
extractions all fail leaves `jobs` empty and the loop continues). -/
def list_jobs_loop (page : JobsPage) : List String → List JobRecord
  | [] => []
  | s :: rest =>
    let jobs := extractJobs (page.rowsOf s)
    if jobs = [] then list_jobs_loop page rest else jobs

/-- `UiPathAutomation.list_jobs` (lines 271-329), restricted to the
record list it returns (navigation, waits and the debug screenshot on
total failure have no effect on the returned value). -/
def list_jobs (page : JobsPage) : List JobRecord :=
  list_jobs_loop page job_item_selectors

/-- The page as `run_job` observes it for one job name: the outcome of
the row-scoped pass's probes and click, and of each page-global fallback
selector's probe and click. -/
structure TriggerPage where
  /-- Probe of `tr:has-text("name"), div:has-text("name")`, `.first`,
  `is_visible(timeout=5000)` (line 356). -/
  rowProbe : ProbeResult
  /-- Probe of the play-button locator scoped to the found row,
  `is_visible(timeout=2000)` (line 371). -/
  playProbe : ProbeResult
  /-- Whether `play_button.click()` (line 373) raises. -/
  rowClickRaises : Bool
  /-- Probe of each page-global composite selector in the fallback loop
  (line 389). -/
  globalProbe : String → ProbeResult
  /-- Whether `page.click(selector)` (line 390) raises for a given
  fallback selector. -/
  globalClickRaises : String → Bool

/-- `play_button_selectors` from `UiPathAutomation.run_job`
(lines 340-349): page-global composite selectors embedding the job name
directly into the selector text. -/
def play_button_selectors (job_name : String) : List String :=
  ["button:has-text(\"" ++ job_name ++ "\") + button[aria-label*=\"play\" i]",
   "button:has-text(\"" ++ job_name ++ "\") + button[aria-label*=\"run\" i]",
   "tr:has-text(\"" ++ job_name ++ "\") button[aria-label*=\"play\" i]",
   "tr:has-text(\"" ++ job_name ++ "\") button[aria-label*=\"run\" i]",
   "[data-testid*=\"job\"]:has-text(\"" ++ job_name ++ "\") button:has-text(\"Play\")",
   "[data-testid*=\"job\"]:has-text(\"" ++ job_name ++ "\") button:has-text(\"Run\")",
   "button[title*=\"play\" i]:near(:text=\"" ++ job_name ++ "\")",
   "button[title*=\"run\" i]:near(:text=\"" ++ job_name ++ "\")"]

/-- The body of `run_job`'s `try` block (lines 352-382), the row-scoped
pass: `Except.error ()` when an exception escapes to the
`except Exception` handler (a raising probe or a raising click);
`Except.ok true` when the row and its play control are visible and the
click succeeds; `Except.ok false` when the row is not visible, or the
play control inside the visible row is not visible — the code `return
False` on those paths without reaching the handler. -/
def run_job_row_pass (page : TriggerPage) : Except Unit Bool :=
  match page.rowProbe with
  | ProbeResult.err => Except.error ()
  | ProbeResult.notVis => Except.ok false
  | ProbeResult.vis =>
    match page.playProbe with
    | ProbeResult.err => Except.error ()
    | ProbeResult.notVis => Except.ok false
    | ProbeResult.vis =>
      if page.rowClickRaises then Except.error () else Except.ok true

/-- The fallback loop inside `run_job`'s `except` handler
(lines 387-395): try each page-global composite selector; a visible
probe followed by a successful click returns `true`; a non-visible
probe, a raising probe, or a raising click all continue with the next
selector (`except: continue`); exhausting the list returns `false`
(line 398). -/
def run_job_fallback (page : TriggerPage) : List String → Bool
  | [] => false
  | s :: rest =>
    if page.globalProbe s = ProbeResult.vis then
      if page.globalClickRaises s then run_job_fallback page rest else true
    else run_job_fallback page rest

/-- The `try`/`except` core of `UiPathAutomation.run_job`
(lines 352-398): the row-scoped pass, whose result is returned directly
when no exception escapes it, and the page-global fallback loop, which
runs only inside the `except Exception` handler.  This portion yields
`Except.ok` in every environment — an `Except.error` result would model
an exception escaping to the caller.  The statements of `run_job`
before the `try` block are modelled by `run_job_full`. -/
def run_job (page : TriggerPage) (job_name : String) : Except Unit Bool :=
  match run_job_row_pass page with
  | Except.ok b => Except.ok b
  | Except.error _ =>
    Except.ok (run_job_fallback page (play_button_selectors job_name))

/-- Whether `run_job` entered the `except Exception` handler and hence
attempted the page-global fallback pass: exactly when the row-scoped
pass raised. -/
def run_job_fallback_attempted (page : TriggerPage) : Bool :=
  match run_job_row_pass page with
  | Except.ok _ => false
  | Except.error _ => true

/-- `UiPathAutomation.run_job` (lines 331-398) in full.  Before the
`try` block, `navigate_to_jobs()` (line 335) catches all of its own
exceptions, but `self.page.wait_for_timeout(2000)` (line 336) is
covered by no handler in `run_job`: when the page capability is gone by
then (the page was closed, or `self.page` is still `None` because the
browser never started) that call raises, and the exception propagates
to `run_job`'s caller.  `preWaitRaises` records whether that call
raises; when it completes, control enters the `try` block modelled by
`run_job`. -/
def run_job_full (preWaitRaises : Bool) (page : TriggerPage)
    (job_name : String) : Except Unit Bool :=
  if preWaitRaises then Except.error () else run_job page job_name

/-- A side effect `login` performs on the page through the resolver
loops: filling a field, clicking a button, or the Enter-key fallback. -/
inductive LoginEvent where
  | fill (sel : String)
  | click (sel : String)
  | pressEnter
deriving DecidableEq, Repr

/-- The page as `login` observes it. -/
structure LoginPage where
  /-- Whether `page.goto(url)` or the initial
  `wait_for_load_state('networkidle')` (lines 94-95) raises; if so the
  outer `except Exception` returns `False` before anything else runs. -/
  gotoFails : Bool
  /-- Probe outcomes on the initial page, used by the first
  `_is_logged_in` check and by the three selector loops. -/
  probe1 : String → ProbeResult
  /-- Whether both `self.username` and `self.password` are nonempty
  (line 103). -/
  hasCredentials : Bool
  /-- Whether the post-submit
  `wait_for_load_state('networkidle', timeout=10000)` (line 177) raises
  (a timeout there is an exception, caught by the outer handler, which
  returns `False`). -/
  postWaitRaises : Bool
  /-- Probe outcomes after the submit, used by the second
  `_is_logged_in` check (line 179). -/
  probe2 : String → ProbeResult

/-- `UiPathAutomation.login` (lines 89-191), returning its boolean
result together with the ordered fill/click/keypress side effects.
Navigate; if already logged in, return `True` at once (lines 98-100);
without credentials return `False`; otherwise resolve and fill the
username field, resolve and fill the password field, resolve and click
the submit button (Enter-key fallback when no button resolves), wait,
and re-classify. -/
def login (p : LoginPage) : Bool × List LoginEvent :=
  if p.gotoFails then (false, [])
  else if is_logged_in p.probe1 then (true, [])
  else if !p.hasCredentials then (false, [])
  else
    match firstVisible p.probe1 username_selectors with
    | none => (false, [])
    | some us =>
      match firstVisible p.probe1 password_selectors with
      | none => (false, [LoginEvent.fill us])
      | some ps =>
        let submitEvents :=
          match firstVisible p.probe1 login_button_selectors with
          | some bs => [LoginEvent.fill us, LoginEvent.fill ps, LoginEvent.click bs]
          | none => [LoginEvent.fill us, LoginEvent.fill ps, LoginEvent.pressEnter]
        if p.postWaitRaises then (false, submitEvents)
        else (is_logged_in p.probe2, submitEvents)

/-- One release call of `UiPathAutomation.close` (lines 417-424). -/
inductive CloseEvent where
  | pageClose
  | contextClose
  | browserClose
  | playwrightStop
deriving DecidableEq, Repr

/-- The automation's handle state and failure modes when `close` runs:
which of the four handles are set (non-`None`), and which release calls
raise. -/
structure CloseState where
  pageSet : Bool
  contextSet : Bool
  browserSet : Bool
  playwrightSet : Bool
  pageCloseRaises : Bool
  contextCloseRaises : Bool
  browserCloseRaises : Bool
  playwrightStopRaises : Bool

/-- The release calls `close` attempts, in source order, each guarded by
its `if self.<handle>:` check and paired with whether it raises. -/
def close_steps (st : CloseState) : List (CloseEvent × Bool) :=
  (if st.pageSet then [(CloseEvent.pageClose, st.pageCloseRaises)] else []) ++
  (if st.contextSet then [(CloseEvent.contextClose, st.contextCloseRaises)] else []) ++
  (if st.browserSet then [(CloseEvent.browserClose, st.browserCloseRaises)] else []) ++
  (if st.playwrightSet then [(CloseEvent.playwrightStop, st.playwrightStopRaises)] else [])

/-- Run release calls sequentially inside one `try` block: the first
raising call aborts the remainder; the flag records whether a call
raised. -/
def runCloseSteps : List (CloseEvent × Bool) → List CloseEvent × Bool
  | [] => ([], false)
  | (ev, raises) :: rest =>
    if raises then ([ev], true)
    else
      let r := runCloseSteps rest
      (ev :: r.1, r.2)

/-- `UiPathAutomation.close` (lines 413-427): the guarded release calls
run in one `try` block whose `except Exception` logs and swallows any
error, so `close` returns normally in every state; the second component
is `none` because no exception escapes to the caller. -/
def close (st : CloseState) : List CloseEvent × Option Unit :=
  ((runCloseSteps (close_steps st)).1, none)

/-- A step of `main`'s `try` block, or the handler's screenshot, or the
`finally` teardown. -/
inductive MainEvent where
  | evBrowserStart
  | evLogin
  | evManualWait
  | evList
  | evRunAll
  | evRunJobs
  | evFinalWait
  | evScreenshot
  | evClose
deriving DecidableEq, Repr

/-- Kind of exception a step of `main` raises: `KeyboardInterrupt` is
caught by its own handler; everything else is `Exception`. -/
inductive MainExn where
  | keyboard
  | error
deriving DecidableEq, Repr

/-- The parsed command-line options `main` branches on (lines 494-532):
`--list-jobs`, `--all`, the collected `--job` names, `--headless`. -/
structure MainArgs where
  listJobsFlag : Bool
  allFlag : Bool
  jobNames : List String
  headless : Bool

/-- Outcomes of the fallible steps inside `main`'s `try` block and of
the handler's screenshot: `none` means the step completes, `some e` that
it raises `e`.  (`login` itself returns a boolean and does not raise;
`input()` during the manual-login pause can raise, e.g. `EOFError`.) -/
structure MainEnv where
  startBrowser : Option MainExn
  loginOk : Bool
  manualInput : Option MainExn
  body : Option MainExn
  finalWait : Option MainExn
  pageSet : Bool
  screenshot : Option MainExn

/-- The event of the command branch `main` selects (lines 494-532):
`--list-jobs`, then `--all`, then `--job` names, else only the help
text. -/
def commandEvents (args : MainArgs) : List MainEvent :=
  if args.listJobsFlag then [MainEvent.evList]
  else if args.allFlag then [MainEvent.evRunAll]
  else if args.jobNames ≠ [] then [MainEvent.evRunJobs]
  else []

/-- The command branch of `main` (lines 494-537) after login: the
selected option's work, then the non-headless closing wait.  `tr` is the
trace accumulated so far. -/
def main_body (args : MainArgs) (env : MainEnv) (tr : List MainEvent) :
    List MainEvent × Option MainExn :=
  match env.body with
  | some e => (tr ++ commandEvents args, some e)
  | none =>
    if !args.headless then
      match env.finalWait with
      | some e => (tr ++ commandEvents args ++ [MainEvent.evFinalWait], some e)
      | none => (tr ++ commandEvents args ++ [MainEvent.evFinalWait], none)
    else (tr ++ commandEvents args, none)

/-- The `try` block of `main` (lines 483-537): start the browser, log in
(pausing on `input()` when login reported failure), then the command
branch.  The second component is the exception escaping the block, if
any. -/
def main_try (args : MainArgs) (env : MainEnv) : List MainEvent × Option MainExn :=
  match env.startBrowser with
  | some e => ([MainEvent.evBrowserStart], some e)
  | none =>
    if !env.loginOk then
      match env.manualInput with
      | some e => ([MainEvent.evBrowserStart, MainEvent.evLogin, MainEvent.evManualWait], some e)
      | none =>
        main_body args env [MainEvent.evBrowserStart, MainEvent.evLogin, MainEvent.evManualWait]
    else main_body args env [MainEvent.evBrowserStart, MainEvent.evLogin]

/-- `main` (lines 430-551) from the `try` block on: the
`except KeyboardInterrupt` handler swallows interrupts, the
`except Exception` handler takes an error screenshot when a page handle
exists (the screenshot itself may raise, and that error escapes `main`),
and the `finally` clause invokes `close()` on every path. -/
def main_run (args : MainArgs) (env : MainEnv) : List MainEvent × Option MainExn :=
  match main_try args env with
  | (tr, none) => (tr ++ [MainEvent.evClose], none)
  | (tr, some MainExn.keyboard) => (tr ++ [MainEvent.evClose], none)
  | (tr, some MainExn.error) =>
    if env.pageSet then
      match env.screenshot with
      | some e => (tr ++ [MainEvent.evScreenshot, MainEvent.evClose], some e)
      | none => (tr ++ [MainEvent.evScreenshot, MainEvent.evClose], none)
    else (tr ++ [MainEvent.evClose], none)

/-- Number of `close()` invocations in a `main` trace. -/
def countClose : List MainEvent → Nat
  | [] => 0
  | e :: rest =>
    (if e = MainEvent.evClose then 1 else 0) + countClose rest

/-- Which handle a release call belongs to: the `if self.<handle>:`
guard that must have been true for the call to be attempted. -/
def closeHandleSet (st : CloseState) : CloseEvent → Bool
  | CloseEvent.pageClose => st.pageSet
  | CloseEvent.contextClose => st.contextSet
  | CloseEvent.browserClose => st.browserSet
  | CloseEvent.playwrightStop => st.playwrightSet

/-- Concrete probe for the resolver witness: only the second password
selector reports visible. -/
def passwordProbe : String → ProbeResult :=
  fun s => if s = "input[type=\"password\"]" then ProbeResult.vis else ProbeResult.notVis

/-- Concrete probe where a positive indicator (`text=Jobs`) and a
negative indicator (`text=Login`) are visible at the same time. -/
def mixedProbe : String → ProbeResult :=
  fun s =>
    if s = "text=Jobs" then ProbeResult.vis
    else if s = "text=Login" then ProbeResult.vis
    else ProbeResult.notVis

/-- Concrete listing page: only the seventh strategy (`tbody tr`)
matches rows — one whose extraction fails, one named row, one whose text
strips to empty. -/
def samplePage : JobsPage :=
  ⟨fun sel =>
    if sel = "tbody tr" then [none, some "Invoice Sync", some ""] else []⟩

/-- Concrete trigger page where the row-scoped pass fails without an
exception (row probe reports not visible) while every page-global
fallback selector would be visible and clickable. -/
def ghostRowPage : TriggerPage :=
  { rowProbe := ProbeResult.notVis
    playProbe := ProbeResult.notVis
    rowClickRaises := false
    globalProbe := fun _ => ProbeResult.vis
    globalClickRaises := fun _ => false }

/-- Concrete trigger page where the row probe raises and every fallback
probe raises too: a job name matching nothing, with transient errors. -/
def allErrPage : TriggerPage :=
  { rowProbe := ProbeResult.err
    playProbe := ProbeResult.notVis
    rowClickRaises := false
    globalProbe := fun _ => ProbeResult.err
    globalClickRaises := fun _ => false }

/-- Concrete login page that is already authenticated: the `nav`
positive indicator is visible on arrival. -/
def alreadyAuthPage : LoginPage :=
  { gotoFails := false
    probe1 := fun s => if s = "nav" then ProbeResult.vis else ProbeResult.notVis
    hasCredentials := true
    postWaitRaises := false
    probe2 := fun _ => ProbeResult.notVis }

/-- Concrete teardown state: the context handle was never set, the page
handle's release raises (so the browser and playwright releases are
aborted), and the error is swallowed. -/
def partialCloseState : CloseState :=
  { pageSet := true
    contextSet := false
    browserSet := true
    playwrightSet := true
    pageCloseRaises := true
    contextCloseRaises := false
    browserCloseRaises := false
    playwrightStopRaises := false }

/-! ## Helper lemmas -/

theorem firstVisible_split (probe : String → ProbeResult) (l1 l2 : List String)
    (s : String) (hvis : probe s = ProbeResult.vis)
    (hprev : ∀ t ∈ l1, probe t ≠ ProbeResult.vis) :
    firstVisible probe (l1 ++ s :: l2) = some s := by
  induction l1 with
  | nil => simp [firstVisible, hvis]
  | cons a l ih =>
    have ha : probe a ≠ ProbeResult.vis := hprev a (by simp)
    simp only [List.cons_append, firstVisible, if_neg ha]
    exact ih fun t ht => hprev t (List.mem_cons_of_mem a ht)

theorem probedSelectors_split (probe : String → ProbeResult) (l1 l2 : List String)
    (s : String) (hvis : probe s = ProbeResult.vis)
    (hprev : ∀ t ∈ l1, probe t ≠ ProbeResult.vis) :
    probedSelectors probe (l1 ++ s :: l2) = l1 ++ [s] := by
  induction l1 with
  | nil => simp [probedSelectors, hvis]
  | cons a l ih =>
    have ha : probe a ≠ ProbeResult.vis := hprev a (by simp)
    simp only [List.cons_append, probedSelectors, if_neg ha]
    exact congrArg (a :: ·) (ih fun t ht => hprev t (List.mem_cons_of_mem a ht))

theorem anyVisible_eq_false (probe : String → ProbeResult) (l : List String)
    (h : ∀ s ∈ l, probe s ≠ ProbeResult.vis) : anyVisible probe l = false := by
  simp only [anyVisible, List.any_eq_false, decide_eq_true_eq]
  exact h

theorem anyVisible_eq_true (probe : String → ProbeResult) (l : List String)
    (s : String) (hs : s ∈ l) (hvis : probe s = ProbeResult.vis) :
    anyVisible probe l = true := by
  simp only [anyVisible, List.any_eq_true, decide_eq_true_eq]
  exact ⟨s, hs, hvis⟩

/-! ## C1 — resolver returns the first strategy whose probe succeeds -/

/-- C1: for each of the four semantic targets (username field, password
field, login button, navigation link), when the strategies before `s`
all fail their visibility probe and `s`'s probe succeeds, the resolver
loop returns the element located by `s`, and the set of probed
strategies is exactly the prefix up to and including `s` — no later
strategy is probed after the success, even if it would also match. -/
theorem resolver_first_success_wins
    (sels : List String)
    (htarget : sels = username_selectors ∨ sels = password_selectors ∨
      sels = login_button_selectors ∨ sels = job_links)
    (probe : String → ProbeResult) (l1 l2 : List String) (s : String)
    (hsplit : sels = l1 ++ s :: l2)
    (hvis : probe s = ProbeResult.vis)
    (hprev : ∀ t ∈ l1, probe t ≠ ProbeResult.vis) :
    firstVisible probe sels = some s ∧ probedSelectors probe sels = l1 ++ [s] := by
  subst hsplit
  exact ⟨firstVisible_split probe l1 l2 s hvis hprev,
    probedSelectors_split probe l1 l2 s hvis hprev⟩

/-- C1 witness: on the password-field target, with both password
strategies matching but only the second one's probe reporting visible
before the first fails, the loop returns the second; with the first
failing and the second visible, the probe stops at the second. -/
theorem resolver_first_success_wins_witness :
    firstVisible passwordProbe password_selectors = some "input[type=\"password\"]" ∧
    probedSelectors passwordProbe password_selectors =
      ["input[name=\"password\"]", "input[type=\"password\"]"] :=
  resolver_first_success_wins password_selectors (Or.inr (Or.inl rfl))
    passwordProbe ["input[name=\"password\"]"] [] "input[type=\"password\"]"
    rfl (by decide) (by decide)

/-! ## C2 — the no-evidence case: Unknown vs the code's `True` -/

/-- C2 counterexample: on a page where no positive and no negative
indicator is visible, `_is_logged_in` returns the boolean `true` —
the coerced Authenticated answer — where the claim requires the
explicit Unknown state (as the spec-worded classifier shows). -/
theorem classifier_unknown_counterexample :
    is_logged_in noIndicatorProbe = true ∧
    boolToSessionState (is_logged_in noIndicatorProbe) ≠ SessionState.unknown ∧
    classifySpec noIndicatorProbe = SessionState.unknown := by
  decide

/-- C2 (amended): when no positive indicator and no negative indicator
is visible, `_is_logged_in` returns `true`, assuming the session is
authenticated: the insufficient-evidence case is coerced to the boolean
authenticated result rather than reported as an explicit Unknown. -/
theorem classifier_no_indicator_assumes_logged_in
    (probe : String → ProbeResult)
    (hpos : ∀ s ∈ logged_in_indicators, probe s ≠ ProbeResult.vis)
    (hneg : ∀ s ∈ login_indicators, probe s ≠ ProbeResult.vis) :
    is_logged_in probe = true ∧
    boolToSessionState (is_logged_in probe) = SessionState.authenticated := by
  have h1 := anyVisible_eq_false probe logged_in_indicators hpos
  have h2 := anyVisible_eq_false probe login_indicators hneg
  simp [is_logged_in, boolToSessionState, h1, h2]

/-- C2 witness: the amended behavior at the all-invisible page. -/
theorem classifier_no_indicator_assumes_logged_in_witness :
    is_logged_in noIndicatorProbe = true ∧
    boolToSessionState (is_logged_in noIndicatorProbe) = SessionState.authenticated :=
  classifier_no_indicator_assumes_logged_in noIndicatorProbe (by decide) (by decide)

/-! ## C5 — positive indicators take precedence -/

/-- C5: whenever at least one positive (logged-in) indicator's probe
reports visible, `_is_logged_in` returns `true` (Authenticated),
regardless of the probe outcomes of the negative indicators: the
positive set is probed first. -/
theorem classifier_positive_precedence
    (probe : String → ProbeResult) (s : String)
    (hs : s ∈ logged_in_indicators) (hvis : probe s = ProbeResult.vis) :
    is_logged_in probe = true := by
  simp [is_logged_in, anyVisible_eq_true probe logged_in_indicators s hs hvis]

/-- C5 witness: with the positive indicator `text=Jobs` and the negative
indicator `text=Login` both visible, the classifier still answers
`true`. -/
theorem classifier_positive_precedence_witness :
    mixedProbe "text=Login" = ProbeResult.vis ∧ is_logged_in mixedProbe = true :=
  ⟨by decide, classifier_positive_precedence mixedProbe "text=Jobs" (by decide) (by decide)⟩

/-! ## C6 — discovery is bounded by the configured maximum -/

theorem extractRows_length_le (i : Nat) (rows : List (Option String)) :
    (extractRows i rows).length ≤ rows.length := by
  induction rows generalizing i with
  | nil => simp [extractRows]
  | cons r rest ih =>
    simp only [extractRows]
    cases rowNameKept r with
    | some n => simpa using ih (i + 1)
    | none => exact Nat.le_succ_of_le (ih (i + 1))

theorem extractJobs_length_le (rows : List (Option String)) :
    (extractJobs rows).length ≤ 50 := by
  calc (extractJobs rows).length ≤ (rows.take 50).length :=
        extractRows_length_le 0 (rows.take 50)
    _ ≤ 50 := List.length_take_le 50 rows

theorem list_jobs_loop_length_le (page : JobsPage) (sels : List String) :
    (list_jobs_loop page sels).length ≤ 50 := by
  induction sels with
  | nil => simp [list_jobs_loop]
  | cons s rest ih =>
    simp only [list_jobs_loop]
    split
    · exact ih
    · exact extractJobs_length_le (page.rowsOf s)

/-- C6: for every listing page, `list_jobs` returns at most 50 records
(the `elements[:50]` truncation), even when the matching row-group
strategy yields more row elements than that. -/
theorem discovery_bounded (page : JobsPage) : (list_jobs page).length ≤ 50 :=
  list_jobs_loop_length_le page job_item_selectors

/-! ## C7 — first productive strategy wins; failed rows are skipped -/

theorem list_jobs_loop_split (page : JobsPage) (l1 l2 : List String) (s : String)
    (hprev : ∀ t ∈ l1, extractJobs (page.rowsOf t) = [])
    (hwin : extractJobs (page.rowsOf s) ≠ []) :
    list_jobs_loop page (l1 ++ s :: l2) = extractJobs (page.rowsOf s) := by
  induction l1 with
  | nil => simp [list_jobs_loop, hwin]
  | cons a l ih =>
    have ha : extractJobs (page.rowsOf a) = [] := hprev a (by simp)
    simp only [List.cons_append, list_jobs_loop, ha, if_pos rfl]
    exact ih fun t ht => hprev t (List.mem_cons_of_mem a ht)

theorem extractRows_map_name (i : Nat) (rows : List (Option String)) :
    (extractRows i rows).map JobRecord.name = rows.filterMap rowNameKept := by
  induction rows generalizing i with
  | nil => simp [extractRows]
  | cons r rest ih =>
    simp only [extractRows, List.filterMap_cons]
    cases rowNameKept r with
    | some n => simpa using ih (i + 1)
    | none => exact ih (i + 1)

/-- C7: discovery tries the row-group strategies in order and returns
exactly the records of the first strategy whose extraction yields any
record — rows of later strategies are never merged in — and within that
winning strategy the returned names are precisely the successful
nonempty extractions of its (truncated) rows, in order: rows whose name
extraction fails are skipped, not fatal. -/
theorem discovery_first_strategy_wins
    (page : JobsPage) (l1 l2 : List String) (s : String)
    (hsplit : job_item_selectors = l1 ++ s :: l2)
    (hprev : ∀ t ∈ l1, extractJobs (page.rowsOf t) = [])
    (hwin : extractJobs (page.rowsOf s) ≠ []) :
    list_jobs page = extractJobs (page.rowsOf s) ∧
    (list_jobs page).map JobRecord.name =
      ((page.rowsOf s).take 50).filterMap rowNameKept := by
  have h : list_jobs page = extractJobs (page.rowsOf s) := by
    unfold list_jobs
    rw [hsplit]
    exact list_jobs_loop_split page l1 l2 s hprev hwin
  refine ⟨h, ?_⟩
  rw [h]
  exact extractRows_map_name 0 ((page.rowsOf s).take 50)

/-- C7 witness: on `samplePage` only the seventh strategy (`tbody tr`)
matches; its first row's extraction fails and its third strips to the
empty string, so discovery returns exactly the one named record, the
failures skipped. -/
theorem discovery_first_strategy_wins_witness :
    list_jobs samplePage = [{ name := "Invoice Sync", idx := 1 }] ∧
    (list_jobs samplePage).map JobRecord.name = ["Invoice Sync"] := by
  have h := discovery_first_strategy_wins samplePage
    ["tr[data-testid*=\"job\"]", "tr[data-testid*=\"process\"]",
     "div[data-testid*=\"job\"]", "div[data-testid*=\"process\"]",
     ".job-row", ".process-row"]
    ["[class*=\"job\"]", "[class*=\"process\"]"] "tbody tr"
    rfl (by decide) (by decide)
  exact ⟨h.1.trans (by decide), h.2.trans (by decide)⟩

/-! ## C3 — the page-global fallback pass runs only on an exception -/

/-- C3 counterexample: on `ghostRowPage` the row-scoped pass fails
without an exception (the row probe reports not visible), every
page-global composite selector would be visible and clickable — the
fallback pass, had it run, would have returned `true` — yet `run_job`
declares failure without attempting the fallback. -/
theorem trigger_fallback_counterexample :
    run_job ghostRowPage "Ghost Job" = Except.ok false ∧
    run_job_fallback_attempted ghostRowPage = false ∧
    run_job_fallback ghostRowPage (play_button_selectors "Ghost Job") = true :=
  ⟨rfl, rfl, rfl⟩

/-- C3 (amended): when the row-scoped pass of the job trigger fails
without an exception — the row for the job name is not visible, or no
action control is visible inside the found row — `run_job` returns
`false` immediately and the page-global composite-selector pass is not
attempted; that second pass runs only when the row-scoped pass raises an
exception. -/
theorem trigger_fallback_only_on_exception
    (page : TriggerPage) (job_name : String) :
    ((page.rowProbe = ProbeResult.notVis ∨
        (page.rowProbe = ProbeResult.vis ∧ page.playProbe = ProbeResult.notVis)) →
      run_job page job_name = Except.ok false ∧
        run_job_fallback_attempted page = false) ∧
    (run_job_row_pass page = Except.error () →
      run_job page job_name =
        Except.ok (run_job_fallback page (play_button_selectors job_name)) ∧
        run_job_fallback_attempted page = true) := by
  constructor
  · intro hrow
    rcases hrow with hrow | ⟨hrow, hplay⟩
    · simp [run_job, run_job_fallback_attempted, run_job_row_pass, hrow]
    · simp [run_job, run_job_fallback_attempted, run_job_row_pass, hrow, hplay]
  · intro herr
    simp [run_job, run_job_fallback_attempted, herr]

/-- C3 witness: the amended behavior at `ghostRowPage`, where the row
probe reports not visible. -/
theorem trigger_fallback_only_on_exception_witness :
    run_job ghostRowPage "Ghost Job" = Except.ok false ∧
    run_job_fallback_attempted ghostRowPage = false :=
  (trigger_fallback_only_on_exception ghostRowPage "Ghost Job").1 (Or.inl rfl)

/-! ## C4 — trigger exceptions: caught inside the `try` block, but the
pre-`try` page wait can propagate -/

theorem run_job_fallback_all_fail (page : TriggerPage)
    (hglobal : ∀ sel, page.globalProbe sel ≠ ProbeResult.vis) :
    ∀ sels, run_job_fallback page sels = false := by
  intro sels
  induction sels with
  | nil => rfl
  | cons s rest ih => simp [run_job_fallback, hglobal s, ih]

/-- C4 counterexample: when the page capability is gone by the time
`run_job` executes `self.page.wait_for_timeout(2000)` (line 336) — the
page closed, or never started — that call raises before the `try` block
and no handler in `run_job` catches it: the trigger propagates the
exception to its caller instead of returning a boolean result, even for
a job name matching no row. -/
theorem trigger_prewait_escape_counterexample :
    run_job_full true allErrPage "Ghost Job" = Except.error () := rfl

/-- C4 (amended): for every page state and every job name, once the
pre-`try` page wait at line 336 completes (the page capability is
live), `run_job` yields an `ok` boolean — any exception raised during
the rest of the trigger procedure is caught: the row-scoped pass's
exceptions land in the handler and the handler's fallback loop swallows
its own probe and click errors — and for a name matching no row (its
row probe does not report visible and no page-global composite selector
embedding it reports visible) the result is `ok false`.  Only a failure
of that initial page wait propagates to the caller. -/
theorem trigger_caught_after_prewait
    (preWaitRaises : Bool) (page : TriggerPage) (job_name : String)
    (hw : preWaitRaises = false) :
    (∃ b, run_job_full preWaitRaises page job_name = Except.ok b) ∧
    (page.rowProbe ≠ ProbeResult.vis →
      (∀ sel, page.globalProbe sel ≠ ProbeResult.vis) →
      run_job_full preWaitRaises page job_name = Except.ok false) := by
  subst hw
  have hred : run_job_full false page job_name = run_job page job_name := rfl
  rw [hred]
  constructor
  · unfold run_job
    cases run_job_row_pass page with
    | ok b => exact ⟨b, rfl⟩
    | error e => exact ⟨run_job_fallback page (play_button_selectors job_name), rfl⟩
  · intro hrow hglobal
    unfold run_job run_job_row_pass
    cases hr : page.rowProbe with
    | vis => exact absurd hr hrow
    | notVis => rfl
    | err => simp [run_job_fallback_all_fail page hglobal]

/-- C4 witness: on `allErrPage` — the row probe raises and every
fallback probe raises — with the pre-`try` wait completing, the trigger
still returns `ok false`. -/
theorem trigger_caught_after_prewait_witness :
    run_job_full false allErrPage "Ghost Job" = Except.ok false :=
  (trigger_caught_after_prewait false allErrPage "Ghost Job" rfl).2
    (fun h => ProbeResult.noConfusion h) (fun _ h => ProbeResult.noConfusion h)

/-! ## C9 — login is idempotent when already authenticated -/

/-- C9: when the initial navigation succeeds and the session already
classifies as authenticated, `login` returns `true` immediately and
performs no fill, click or keypress: the credential fields are never
filled and the submit control is never clicked. -/
theorem login_idempotent_when_authenticated
    (p : LoginPage) (hgoto : p.gotoFails = false)
    (hauth : is_logged_in p.probe1 = true) :
    login p = (true, []) := by
  simp [login, hgoto, hauth]

/-- C9 witness: on `alreadyAuthPage` (the `nav` indicator is visible on
arrival) `login` returns `true` with an empty side-effect trace. -/
theorem login_idempotent_when_authenticated_witness :
    login alreadyAuthPage = (true, []) :=
  login_idempotent_when_authenticated alreadyAuthPage rfl (by decide)

/-! ## C8 — `close()` runs exactly once per run of `main` -/

theorem countClose_append (l1 l2 : List MainEvent) :
    countClose (l1 ++ l2) = countClose l1 + countClose l2 := by
  induction l1 with
  | nil => simp [countClose]
  | cons e rest ih => simp [countClose, ih, Nat.add_assoc]

theorem countClose_eq_zero (l : List MainEvent) (h : MainEvent.evClose ∉ l) :
    countClose l = 0 := by
  induction l with
  | nil => rfl
  | cons e rest ih =>
    have he : ¬e = MainEvent.evClose := fun h2 => h (h2 ▸ List.mem_cons_self e rest)
    simp [countClose, he, ih fun hm => h (List.mem_cons_of_mem e hm)]

theorem evClose_not_mem_commandEvents (args : MainArgs) :
    MainEvent.evClose ∉ commandEvents args := by
  unfold commandEvents
  split_ifs <;> simp

theorem evClose_not_mem_main_body (args : MainArgs) (env : MainEnv)
    (tr : List MainEvent) (htr : MainEvent.evClose ∉ tr) :
    MainEvent.evClose ∉ (main_body args env tr).1 := by
  have hc := evClose_not_mem_commandEvents args
  cases hb : env.body with
  | some e => simp [main_body, hb, List.mem_append, htr, hc]
  | none =>
    cases hh : args.headless with
    | true => simp [main_body, hb, hh, List.mem_append, htr, hc]
    | false =>
      cases hw : env.finalWait with
      | some e => simp [main_body, hb, hh, hw, List.mem_append, htr, hc]
      | none => simp [main_body, hb, hh, hw, List.mem_append, htr, hc]

theorem evClose_not_mem_main_try (args : MainArgs) (env : MainEnv) :
    MainEvent.evClose ∉ (main_try args env).1 := by
  cases hs : env.startBrowser with
  | some e => simp [main_try, hs]
  | none =>
    cases hl : env.loginOk with
    | false =>
      cases hm : env.manualInput with
      | some e => simp [main_try, hs, hl, hm]
      | none =>
        have h2 := evClose_not_mem_main_body args env
          [MainEvent.evBrowserStart, MainEvent.evLogin, MainEvent.evManualWait] (by simp)
        simpa [main_try, hs, hl, hm] using h2
    | true =>
      have h2 := evClose_not_mem_main_body args env
        [MainEvent.evBrowserStart, MainEvent.evLogin] (by simp)
      simpa [main_try, hs, hl] using h2

/-- C8: for every combination of command-line options and every pattern
of step outcomes inside `main`'s `try` block — browser start, login,
listing, triggering, the final wait, or the error-handler's screenshot
raising — the trace of a run contains exactly one `close()` invocation:
the `finally` clause runs it once on every path, and nothing else
invokes it. -/
theorem teardown_close_exactly_once (args : MainArgs) (env : MainEnv) :
    countClose (main_run args env).1 = 1 := by
  rcases hmt : main_try args env with ⟨tr, exn⟩
  have h0 : countClose tr = 0 := by
    have hnm := evClose_not_mem_main_try args env
    rw [hmt] at hnm
    exact countClose_eq_zero tr hnm
  cases exn with
  | none => simp [main_run, hmt, countClose_append, h0, countClose]
  | some e =>
    cases e with
    | keyboard => simp [main_run, hmt, countClose_append, h0, countClose]
    | error =>
      cases hp : env.pageSet with
      | false => simp [main_run, hmt, hp, countClose_append, h0, countClose]
      | true =>
        cases hss : env.screenshot with
        | some e2 => simp [main_run, hmt, hp, hss, countClose_append, h0, countClose]
        | none => simp [main_run, hmt, hp, hss, countClose_append, h0, countClose]

/-! ## C10 — teardown is safe: unset handles skipped, errors swallowed -/

theorem mem_runCloseSteps (steps : List (CloseEvent × Bool)) (e : CloseEvent)
    (he : e ∈ (runCloseSteps steps).1) : e ∈ steps.map Prod.fst := by
  induction steps with
  | nil => simp [runCloseSteps] at he
  | cons p rest ih =>
    rcases p with ⟨ev, raises⟩
    cases raises with
    | true =>
      simp [runCloseSteps] at he
      simp [he]
    | false =>
      simp [runCloseSteps] at he
      rcases he with rfl | he2
      · simp
      · simp [ih he2]

theorem mem_close_steps_fst (st : CloseState) (e : CloseEvent)
    (he : e ∈ (close_steps st).map Prod.fst) : closeHandleSet st e = true := by
  cases e <;>
    cases h1 : st.pageSet <;> cases h2 : st.contextSet <;>
      cases h3 : st.browserSet <;> cases h4 : st.playwrightSet <;>
        simp_all [close_steps, closeHandleSet]

/-- C10: `close` never lets an exception escape to its caller (its
second component is `none` in every state, including states where a
release call raises), and every release call it performs is for a handle
that is actually set — an unset page, context, browser or playwright
handle is skipped, so `close` is safe even when the browser was never
started. -/
theorem close_never_raises_and_skips_unset (st : CloseState) :
    (close st).2 = none ∧
    ∀ e ∈ (close st).1, closeHandleSet st e = true := by
  refine ⟨rfl, fun e he => ?_⟩
  simp only [close] at he
  exact mem_close_steps_fst st e (mem_runCloseSteps (close_steps st) e he)

/-- C10 witness: in `partialCloseState` the page release raises, so the
remaining releases are aborted — yet no exception escapes and the only
release attempted is for a set handle. -/
theorem close_never_raises_and_skips_unset_witness :
    (close partialCloseState).2 = none ∧
    (close partialCloseState).1 = [CloseEvent.pageClose] :=
  ⟨(close_never_raises_and_skips_unset partialCloseState).1, rfl⟩
